import Mathlib

/-!
Verification development for the claw-office bot server
(`src/apps/claw-office/server/ws-server.js` and its viewer/client).

The JavaScript source is shallowly embedded: every definition below is a
direct translation of the corresponding function in the source, including
its JavaScript quirks (falsiness of `0` and `""` in `||` chains, insertion
order of `Map` iteration, the exact order of validation checks in each
HTTP handler).  Continuous bot coordinates are modelled as integers: every
claim under study only exercises integer tile coordinates, and
`Math.floor` is the identity on them.
-/

namespace ClawOffice

/-- A tile coordinate, the JS object obtained from a key string "x,y". -/
abbrev Pos := Int × Int

/-! ### JavaScript helpers

`jsOr`-style helpers reproduce the semantics of the `||` operator on the
value kinds the server actually uses: `undefined`/`null` (modelled as
`none`), the falsy number `0`, and the falsy string `""`. -/

/-- JS `v || d` for an optional string (`none` and `""` are falsy). -/
def jsOrStr (v : Option String) (d : String) : String :=
  match v with
  | none => d
  | some s => if s = "" then d else s

/-- JS `v || d` for an optional number (`none` and `0` are falsy). -/
def jsOrNat (v : Option Nat) (d : Nat) : Nat :=
  match v with
  | none => d
  | some n => if n = 0 then d else n

/-- Truthiness of an optional string (`null`/`undefined`/`""` are falsy). -/
def jsTruthyStr (v : Option String) : Bool :=
  match v with
  | none => false
  | some s => s ≠ ""

/-- JS `scores.get(key) || Infinity`: a missing entry or a stored `0` both
yield `Infinity`, modelled as `none`. -/
def jsOrInf (v : Option Nat) : Option Nat :=
  match v with
  | none => none
  | some n => if n = 0 then none else some n

/-- Comparison `a < b` where either side may be `Infinity` (`none`). -/
def ltInf (a b : Option Nat) : Bool :=
  match a, b with
  | none, _ => false
  | some _, none => true
  | some x, some y => x < y

/-- Comparison `t >= (g || Infinity)`: false when the right side is `Infinity`. -/
def geInf (t : Nat) (g : Option Nat) : Bool :=
  match jsOrInf g with
  | none => false
  | some v => t ≥ v

/-! ### Insertion-ordered maps

JS `Map` iterates in insertion order and `set` on an existing key keeps
its position; modelled as association lists. -/

/-- Lookup, as JS `Map.get` (also used for plain keyed JSON objects). -/
def alGet {κ α : Type} [DecidableEq κ] (m : List (κ × α)) (k : κ) : Option α :=
  match m.find? (fun e => e.1 = k) with
  | none => none
  | some e => some e.2

/-- Update, as JS `Map.set`: overwrite in place, or append a new binding. -/
def alSet {κ α : Type} [DecidableEq κ] (m : List (κ × α)) (k : κ) (v : α) :
    List (κ × α) :=
  if (m.find? (fun e => e.1 = k)).isSome then
    m.map (fun e => if e.1 = k then (k, v) else e)
  else
    m ++ [(k, v)]

/-- Removal, as JS `Map.delete`. -/
def alErase {κ α : Type} [DecidableEq κ] (m : List (κ × α)) (k : κ) :
    List (κ × α) :=
  m.filter (fun e => e.1 ≠ k)

/-! ### Grid model (`mapCollisions` / `isWalkable`) -/

/-- The collision layer loaded from `office.tmj` by `loadMapData`:
a `width`×`height` tile grid in row-major order, `0` meaning walkable. -/
structure CollisionMap where
  width : Int
  height : Int
  data : List Nat
  deriving DecidableEq, Repr

/-- Walkability query `isWalkable(x, y)`, ws-server.js lines 96-103.  When no collision
map is loaded the function returns `true` for every coordinate; with a
map, out-of-range coordinates are not walkable and in-range ones are
walkable exactly when the stored tile value is `0` (an index beyond the
data array reads `undefined`, which is not `=== 0`). -/
def isWalkable (m : Option CollisionMap) (x y : Int) : Bool :=
  match m with
  | none => true
  | some mc =>
    if x < 0 || x ≥ mc.width || y < 0 || y ≥ mc.height then false
    else mc.data.get? (y * mc.width + x).toNat = some 0

/-! ### Pathfinder (`findPath`, ws-server.js lines 106-198) -/

/-- Manhattan-distance heuristic toward the goal. -/
def heuristic (endP : Pos) (p : Pos) : Nat :=
  (p.1 - endP.1).natAbs + (p.2 - endP.2).natAbs

/-- The search state of the A* loop: `openSet` is a JS `Map` whose values
always equal their keys, so only the insertion-ordered key list is kept;
`closedSet` is a JS `Set` used for membership only. -/
structure AStarState where
  openSet : List Pos
  closedSet : List Pos
  cameFrom : List (Pos × Pos)
  gScore : List (Pos × Nat)
  fScore : List (Pos × Nat)
  deriving Repr

/-- The linear minimum-f scan over `openSet`; `fScore.get(key) || Infinity`
turns both a missing score and a stored `0` into `Infinity`, and only a
strictly smaller finite score replaces the running minimum. -/
def scanMin (fScore : List (Pos × Nat)) (openSet : List Pos) : Option Pos :=
  (openSet.foldl
    (fun acc key =>
      let f := jsOrInf (alGet fScore key)
      if ltInf f acc.2 then (some key, f) else acc)
    ((none : Option Pos), (none : Option Nat))).1

/-- The path-reconstruction `while (key)` loop, verbatim: prepend
`cameFrom.get(key) || current`, step `key` to that node's key when the
entry exists, and on reaching the start key prepend the start once more
and stop. -/
def reconstructPath (cameFrom : List (Pos × Pos)) (current startP : Pos) :
    Nat → Pos → List Pos → List Pos
  | 0, _, acc => acc
  | fuel + 1, key, acc =>
    let node := (alGet cameFrom key).getD current
    let acc' := node :: acc
    match alGet cameFrom key with
    | none => acc'
    | some _ =>
      if node = startP then startP :: acc'
      else reconstructPath cameFrom current startP fuel node acc'

/-- Processing of one 4-neighbour inside the `for (const neighbor ...)`
loop: skip non-walkable and closed tiles, insert a new tile into the open
set, skip an open tile whose recorded g-score is not improved, and
otherwise record predecessor and scores. -/
def visitNeighbor (m : Option CollisionMap) (endP current : Pos)
    (st : AStarState) (nb : Pos) : AStarState :=
  if !(isWalkable m nb.1 nb.2) then st
  else if st.closedSet.contains nb then st
  else
    let tentativeG := ((alGet st.gScore current).getD 0) + 1
    let update := fun (s : AStarState) =>
      { s with
        cameFrom := alSet s.cameFrom nb current
        gScore := alSet s.gScore nb tentativeG
        fScore := alSet s.fScore nb (tentativeG + heuristic endP nb) }
    if !(st.openSet.contains nb) then
      update { st with openSet := st.openSet ++ [nb] }
    else if geInf tentativeG (alGet st.gScore nb) then st
    else update st

/-- One `while (openSet.size > 0)` iteration plus the recursive rest of
the loop, fuel-bounded (the JS loop always terminates; every claim below
is evaluated with ample fuel). -/
def astarLoop (m : Option CollisionMap) (startP endP : Pos) :
    Nat → AStarState → Option (List Pos)
  | 0, _ => none
  | fuel + 1, st =>
    if st.openSet.isEmpty then none
    else
      match scanMin st.fScore st.openSet with
      | none => none
      | some current =>
        if current = endP then
          some (reconstructPath st.cameFrom current startP (fuel + 1) current [])
        else
          let st' := { st with
            openSet := st.openSet.erase current
            closedSet := current :: st.closedSet }
          let neighbors : List Pos :=
            [(current.1, current.2 - 1), (current.1, current.2 + 1),
             (current.1 - 1, current.2), (current.1 + 1, current.2)]
          astarLoop m startP endP fuel
            (neighbors.foldl (visitNeighbor m endP current) st')

/-- Pathfinder entry `findPath(startX, startY, endX, endY)`: reject a non-walkable start or
goal, then run the A* loop from the seeded open set.  (`Math.floor` is the
identity on the integer coordinates modelled here.) -/
def findPath (m : Option CollisionMap) (fuel : Nat)
    (startX startY endX endY : Int) : Option (List Pos) :=
  if !(isWalkable m startX startY) || !(isWalkable m endX endY) then none
  else
    let startP : Pos := (startX, startY)
    let endP : Pos := (endX, endY)
    astarLoop m startP endP fuel
      { openSet := [startP]
        closedSet := []
        cameFrom := []
        gScore := [(startP, 0)]
        fScore := [(startP, heuristic endP startP)] }

/-! ### Bot records and persistence -/

/-- Task status record; `description` is absent on the default record
written by `createBot` and always a string on records written by the
task-status endpoint. -/
structure TaskStatus where
  status : String
  description : Option String
  lastUpdate : Nat
  deriving DecidableEq, Repr

/-- Speech bubble record set by the say endpoint; `untilMs` models the JS
field `until`, a reserved word in Lean. -/
structure Speech where
  text : String
  untilMs : Nat
  deriving DecidableEq, Repr

/-- A live bot record.  Field names follow the JS object; the underscored
transient fields `_moveDir`, `_autoMove`, `_path`, `_pathIndex` lose the
underscore.  Fields that some bots simply do not carry in JS
(`createdAt`, `taskStatus`, `_path`, `_pathIndex` before first use) are
options. -/
structure Bot where
  id : String
  type : String
  character : String
  name : Option String
  x : Int
  y : Int
  target : String
  state : String
  boundBy : Option String
  speech : Option Speech
  manual : Bool
  moveDir : Option String
  autoMove : Bool
  path : Option (List Pos)
  pathIndex : Option Nat
  createdAt : Option Nat
  taskStatus : Option TaskStatus
  isNew : Bool
  deriving DecidableEq, Repr

/-- One keyed record of `bots.json`, exactly the object written by
`saveBotToFile` (lines 238-255). -/
structure SavedBot where
  id : String
  character : String
  name : String
  createdAt : Option Nat
  lastPosition : Pos
  lastSeen : Nat
  taskStatus : TaskStatus
  deriving DecidableEq, Repr

/-- The snapshot record `saveBotToFile` builds from a live bot:
`name: botData.name || botData.id`, the current position, and
`taskStatus: botData.taskStatus || { status: "idle", lastUpdate: now }`. -/
def mkSavedBot (now : Nat) (b : Bot) : SavedBot :=
  { id := b.id
    character := b.character
    name := jsOrStr b.name b.id
    createdAt := b.createdAt
    lastPosition := (b.x, b.y)
    lastSeen := now
    taskStatus := b.taskStatus.getD
      { status := "idle", description := none, lastUpdate := now } }

/-- SPAWN_POSITION. -/
def SPAWN_POSITION : Pos := (13, 19)

/-- The LOCATIONS lookup table (coordinates only; display names are not
consulted by any handler logic). -/
def LOCATIONS : List (String × Pos) :=
  [("desk_pm", (10, 4)), ("desk_xm", (10, 6)), ("desk_coder", (13, 4)),
   ("desk_alvin", (6, 8)), ("pantry", (25, 5)), ("spawn", (13, 19))]

/-- The single entry of the `localBots` array (lines 201-217). -/
def alvinLocal : Bot :=
  { id := "alvin-local", type := "local", character := "alvin"
    name := some "Alvin (You)", x := 15, y := 20, target := "desk_alvin"
    state := "working", boundBy := none, speech := none, manual := false
    moveDir := none, autoMove := false, path := none, pathIndex := none
    createdAt := none, taskStatus := none, isNew := false }

/-- Server-side mutable state: the local bot array, the `remoteBots` map,
the content of `bots.json`, the loaded collision map, and the set of
authenticated WebSocket clients (`wsClients`), in insertion order. -/
structure ServerState where
  localBots : List Bot
  remoteBots : List (String × Bot)
  savedBots : List (String × SavedBot)
  mapCollisions : Option CollisionMap
  wsClients : List Nat
  deriving DecidableEq, Repr

/-- The state at process start with an empty `bots.json`. -/
def initialState (m : Option CollisionMap) : ServerState :=
  { localBots := [alvinLocal], remoteBots := [], savedBots := []
    mapCollisions := m, wsClients := [] }

/-- Bot lookup `getBotById`: first local bot with the id, else the
`remoteBots` entry. -/
def getBotById (s : ServerState) (id : String) : Option Bot :=
  match s.localBots.find? (fun b => b.id = id) with
  | some b => some b
  | none => alGet s.remoteBots id

/-- Replace the first list element with the given id, mirroring a JS
mutation of the object `Array.find` returned. -/
def replaceFirstLocal (f : Bot → Bot) (id : String) : List Bot → List Bot
  | [] => []
  | b :: bs =>
    if b.id = id then f b :: bs else b :: replaceFirstLocal f id bs

/-- In-place mutation of the bot object `getBotById` resolves: the first
matching local bot if one exists, otherwise the `remoteBots` entry. -/
def updateBot (s : ServerState) (id : String) (f : Bot → Bot) : ServerState :=
  if (s.localBots.find? (fun b => b.id = id)).isSome then
    { s with localBots := replaceFirstLocal f id s.localBots }
  else
    { s with remoteBots :=
        s.remoteBots.map (fun e => if e.1 = id then (e.1, f e.2) else e) }

/-- Bot creation / rehydration `createBot(clawId, customName)` (lines
261-310).  A saved record rehydrates position, character, creation time
and task status; otherwise a fresh bot spawns at SPAWN_POSITION with the
supplied random character and is immediately persisted.  Returns the bot
together with the resulting `bots.json` content.  (In this model every
saved record was written by `mkSavedBot`, so its `taskStatus` field is
always present and the JS fallback on it cannot fire.) -/
def createBot (savedBots : List (String × SavedBot)) (clawId : String)
    (customName : Option String) (now : Nat) (randChar : String) :
    Bot × List (String × SavedBot) :=
  match alGet savedBots clawId with
  | some saved =>
    ({ id := clawId, type := "remote", character := saved.character
       name := some (jsOrStr (some saved.name) (jsOrStr customName clawId))
       x := saved.lastPosition.1, y := saved.lastPosition.2
       target := "spawn", state := "working", boundBy := some clawId
       speech := none, manual := true, moveDir := none, autoMove := false
       path := none, pathIndex := none, createdAt := saved.createdAt
       taskStatus := some saved.taskStatus, isNew := false }, savedBots)
  | none =>
    let bot : Bot :=
      { id := clawId, type := "remote", character := randChar
        name := some (jsOrStr customName clawId)
        x := SPAWN_POSITION.1, y := SPAWN_POSITION.2
        target := "spawn", state := "working", boundBy := some clawId
        speech := none, manual := true, moveDir := none, autoMove := false
        path := none, pathIndex := none, createdAt := some now
        taskStatus := some { status := "idle", description := none, lastUpdate := now }
        isNew := true }
    (bot, alSet savedBots clawId (mkSavedBot now bot))

/-! ### Broadcast events -/

/-- The bot projection broadcast by the bind endpoint. -/
structure BotBroadcast where
  id : String
  type : String
  character : String
  name : Option String
  x : Int
  y : Int
  target : String
  state : String
  boundBy : Option String
  deriving DecidableEq, Repr

/-- Projection of a live bot to its bind-broadcast payload. -/
def Bot.broadcast (b : Bot) : BotBroadcast :=
  { id := b.id, type := b.type, character := b.character, name := b.name
    x := b.x, y := b.y, target := b.target, state := b.state
    boundBy := b.boundBy }

/-- The catalogue of events pushed through `broadcastToClients`, one
constructor per `type` string, carrying the payload fields the server
sends. -/
inductive Event where
  | botCreated (bot : BotBroadcast)
  | botBound (bot : BotBroadcast)
  | botRemoved (id : String)
  | botMove (id direction : String)
  | botGoto (id : String) (path : List Pos) (target : String)
  | botState (id st : String)
  | botSay (id message : String) (duration : Nat)
  | botTaskStatus (id : String) (ts : TaskStatus)
  | botPosition (id : String) (x y : Int)
  deriving DecidableEq, Repr

/-- Fan-out of `broadcastToClients`: one send per member of `wsClients`
(only authenticated connections are ever added to that set). -/
def broadcastSends (s : ServerState) (e : Event) : List (Nat × Event) :=
  s.wsClients.map (fun c => (c, e))

/-! ### Control API handlers

Each handler is the body of one express route (after the shared
`verifyApiKey` middleware), returning its typed outcome, the mutated
server state, and the broadcast events it emitted, in order. -/

/-- Outcome of POST /api/bots/:id/bind. -/
inductive BindResult where
  | forbidden
  | ok (created : Bool) (bot : Bot)
  deriving DecidableEq, Repr

/-- Handler of POST /api/bots/:id/bind (lines 378-419): forbidden for a
local bot id, otherwise create-or-rehydrate, store into `remoteBots`, and
broadcast `bot_created` or `bot_bound`. -/
def bindHandler (s : ServerState) (clawId : String) (customName : Option String)
    (now : Nat) (randChar : String) : BindResult × ServerState × List Event :=
  if (s.localBots.find? (fun b => b.id = clawId)).isSome then
    (BindResult.forbidden, s, [])
  else
    let (bot, saved') := createBot s.savedBots clawId customName now randChar
    let s' := { s with savedBots := saved'
                       remoteBots := alSet s.remoteBots clawId bot }
    (BindResult.ok bot.isNew bot, s',
     [if bot.isNew then Event.botCreated bot.broadcast
      else Event.botBound bot.broadcast])

/-- Outcome of POST /api/bots/:id/unbind. -/
inductive UnbindResult where
  | notFound
  | forbidden
  | ok
  deriving DecidableEq, Repr

/-- Handler of POST /api/bots/:id/unbind (lines 422-444): 404 on an
unknown id, 403 on a local bot, otherwise persist the snapshot, remove
the live record, and broadcast `bot_removed`. -/
def unbindHandler (s : ServerState) (botId : String) (now : Nat) :
    UnbindResult × ServerState × List Event :=
  match getBotById s botId with
  | none => (UnbindResult.notFound, s, [])
  | some bot =>
    if bot.type = "local" then (UnbindResult.forbidden, s, [])
    else
      let s' := { s with savedBots := alSet s.savedBots botId (mkSavedBot now bot)
                         remoteBots := alErase s.remoteBots botId }
      (UnbindResult.ok, s', [Event.botRemoved bot.id])

/-- Outcome of POST /api/bots/:id/move. -/
inductive MoveResult where
  | notFound
  | notBound
  | badRequest
  | ok (direction : String)
  deriving DecidableEq, Repr

/-- Valid direction strings of the move endpoint. -/
def validDirections : List String := ["up", "down", "left", "right", "stop"]

/-- Handler of POST /api/bots/:id/move (lines 447-470): 404 on an unknown
id, 403 on an unbound bot, 400 on a direction outside the fixed set, and
otherwise store `_moveDir` and broadcast `bot_move`.  No other motion
field is touched. -/
def moveHandler (s : ServerState) (id : String) (direction : Option String) :
    MoveResult × ServerState × List Event :=
  match getBotById s id with
  | none => (MoveResult.notFound, s, [])
  | some bot =>
    if !(jsTruthyStr bot.boundBy) then (MoveResult.notBound, s, [])
    else
      match direction with
      | none => (MoveResult.badRequest, s, [])
      | some d =>
        if validDirections.contains d then
          (MoveResult.ok d,
           updateBot s id (fun b => { b with moveDir := some d }),
           [Event.botMove bot.id d])
        else (MoveResult.badRequest, s, [])

/-- Outcome of POST /api/bots/:id/goto. -/
inductive GotoResult where
  | notFound
  | notBound
  | badLocation
  | badBody
  | noPathFound
  | ok (path : List Pos) (target : Pos)
  deriving DecidableEq, Repr

/-- Destination resolution plus path assignment of the goto handler, for
an already-resolved target tile. -/
def gotoWithTarget (s : ServerState) (fuel : Nat) (id : String) (bot : Bot)
    (loc : Option String) (target : Pos) : GotoResult × ServerState × List Event :=
  match findPath s.mapCollisions fuel bot.x bot.y target.1 target.2 with
  | none => (GotoResult.noPathFound, s, [])
  | some p =>
    (GotoResult.ok p target,
     updateBot s id (fun b =>
       { b with autoMove := true, path := some p, pathIndex := some 0
                target := jsOrStr loc "custom" }),
     [Event.botGoto bot.id p (jsOrStr loc "custom")])

/-- Handler of POST /api/bots/:id/goto (lines 473-541): 404 on an unknown
id, 403 on an unbound bot, then resolve the destination (named location
or direct coordinates, 400 on an unknown name or an incomplete body),
run `findPath` from the bot position, 400 when it returns null, and
otherwise set the auto-move fields and broadcast `bot_goto`.  The
existing `_moveDir` is not touched. -/
def gotoHandler (s : ServerState) (fuel : Nat) (id : String)
    (loc : Option String) (xArg yArg : Option Int) :
    GotoResult × ServerState × List Event :=
  match getBotById s id with
  | none => (GotoResult.notFound, s, [])
  | some bot =>
    if !(jsTruthyStr bot.boundBy) then (GotoResult.notBound, s, [])
    else
      if jsTruthyStr loc then
        match alGet LOCATIONS (loc.getD "") with
        | none => (GotoResult.badLocation, s, [])
        | some t => gotoWithTarget s fuel id bot loc t
      else
        match xArg, yArg with
        | some tx, some ty => gotoWithTarget s fuel id bot loc (tx, ty)
        | _, _ => (GotoResult.badBody, s, [])

/-- Outcome of POST /api/bots/:id/state. -/
inductive StateResult where
  | notFound
  | badRequest
  | ok (st : String)
  deriving DecidableEq, Repr

/-- Valid visual-state strings of the state endpoint. -/
def validStates : List String := ["working", "coffee", "offline"]

/-- Handler of POST /api/bots/:id/state (lines 544-563): 404 on an
unknown id, 400 on a state outside the fixed set, otherwise store the
state and broadcast `bot_state`.  There is no bound check. -/
def stateHandler (s : ServerState) (id : String) (st : Option String) :
    StateResult × ServerState × List Event :=
  match getBotById s id with
  | none => (StateResult.notFound, s, [])
  | some bot =>
    match st with
    | none => (StateResult.badRequest, s, [])
    | some v =>
      if validStates.contains v then
        (StateResult.ok v,
         updateBot s id (fun b => { b with state := v }),
         [Event.botState bot.id v])
      else (StateResult.badRequest, s, [])

/-- Outcome of POST /api/bots/:id/say. -/
inductive SayResult where
  | notFound
  | badRequest
  | ok (message : String)
  deriving DecidableEq, Repr

/-- Handler of POST /api/bots/:id/say (lines 566-587): 404 on an unknown
id, 400 on a missing or empty message, otherwise store the speech bubble
(duration defaulting to 5000 under JS falsiness) and broadcast
`bot_say`. -/
def sayHandler (s : ServerState) (id : String) (message : Option String)
    (duration : Option Nat) (now : Nat) : SayResult × ServerState × List Event :=
  match getBotById s id with
  | none => (SayResult.notFound, s, [])
  | some bot =>
    let dur := jsOrNat duration 5000
    if !(jsTruthyStr message) then (SayResult.badRequest, s, [])
    else
      let text := message.getD ""
      (SayResult.ok text,
       updateBot s id (fun b => { b with speech := some { text := text, untilMs := now + dur } }),
       [Event.botSay bot.id text dur])

/-- Outcome of POST /api/bots/:id/task-status. -/
inductive TaskStatusResult where
  | notFound
  | badRequest
  | ok (ts : TaskStatus)
  deriving DecidableEq, Repr

/-- Valid task-status strings. -/
def validTaskStatuses : List String := ["idle", "working"]

/-- Handler of POST /api/bots/:id/task-status (lines 642-681): 404 on an
unknown id, 400 on a status outside the fixed set, otherwise store the
new task status, persist the updated bot snapshot under `bot.id`, and
broadcast `bot_task_status`. -/
def taskStatusHandler (s : ServerState) (id : String) (status : Option String)
    (description : Option String) (now : Nat) :
    TaskStatusResult × ServerState × List Event :=
  match getBotById s id with
  | none => (TaskStatusResult.notFound, s, [])
  | some bot =>
    match status with
    | none => (TaskStatusResult.badRequest, s, [])
    | some v =>
      if validTaskStatuses.contains v then
        let ts : TaskStatus :=
          { status := v, description := some (jsOrStr description ""), lastUpdate := now }
        let s1 := updateBot s id (fun b => { b with taskStatus := some ts })
        let saved' := alSet s1.savedBots bot.id (mkSavedBot now { bot with taskStatus := some ts })
        let s2 := { s1 with savedBots := saved' }
        (TaskStatusResult.ok ts, s2, [Event.botTaskStatus bot.id ts])
      else (TaskStatusResult.badRequest, s, [])

/-! ### WebSocket connection handling (lines 769-838) -/

/-- Per-connection state: the closure variable `authenticated` and
whether `ws.close()` has been called. -/
structure ConnState where
  authenticated : Bool
  closedConn : Bool
  deriving DecidableEq, Repr

/-- Inbound WebSocket messages: `auth`, the position report `bot_update`,
or any other parsed frame (which the server ignores once authenticated). -/
inductive WsMsg where
  | auth (token : String)
  | botUpdate (id : String) (x y : Int)
  | other
  deriving DecidableEq, Repr

/-- Direct replies the server sends on the receiving connection (as
opposed to broadcasts). -/
inductive WsReply where
  | authSuccess (bots : List Bot)
  | authFailed
  | errNotAuthenticated
  deriving DecidableEq, Repr

/-- Live bot enumeration `getAllBots`: local bots then the remote map in
insertion order. -/
def getAllBots (s : ServerState) : List Bot :=
  s.localBots ++ s.remoteBots.map (fun e => e.2)

/-- JS `Set.add`. -/
def addClient (clients : List Nat) (cid : Nat) : List Nat :=
  if clients.contains cid then clients else clients ++ [cid]

/-- One message of the per-connection handler (lines 774-828),
parameterised by the JWT verification oracle `verify` (the `jsonwebtoken`
library is external to the repository).  An `auth` frame is handled
regardless of the current authentication flag: a valid token sets the
flag, adds the connection to `wsClients` and replies with a full
snapshot; an invalid one replies `auth_failed` and closes the connection
without ever adding it.  Any other frame before authentication gets an
error reply and the connection stays open.  After authentication,
`bot_update` overwrites the target bot position and broadcasts
`bot_position`; unknown frame types are ignored. -/
def handleWsMessage (verify : String → Bool) (s : ServerState)
    (cid : Nat) (c : ConnState) (m : WsMsg) :
    ServerState × ConnState × List WsReply × List Event :=
  match m with
  | WsMsg.auth token =>
    if verify token then
      ({ s with wsClients := addClient s.wsClients cid },
       { c with authenticated := true },
       [WsReply.authSuccess (getAllBots s)], [])
    else
      (s, { c with closedConn := true }, [WsReply.authFailed], [])
  | WsMsg.botUpdate id x y =>
    if !c.authenticated then (s, c, [WsReply.errNotAuthenticated], [])
    else
      match getBotById s id with
      | none => (s, c, [], [])
      | some bot =>
        (updateBot s id (fun b => { b with x := x, y := y }), c,
         [], [Event.botPosition bot.id x y])
  | WsMsg.other =>
    if !c.authenticated then (s, c, [WsReply.errNotAuthenticated], [])
    else (s, c, [], [])

/-- The close handler (lines 830-833): drop the connection from
`wsClients`. -/
def handleWsClose (s : ServerState) (cid : Nat) : ServerState :=
  { s with wsClients := s.wsClients.filter (fun c => c ≠ cid) }

/-! ### Success projections of the handler outcomes -/

/-- Whether a bind outcome is the HTTP 200 success branch. -/
def BindResult.isOk : BindResult → Bool
  | BindResult.ok _ _ => true
  | _ => false

/-- Whether an unbind outcome is the HTTP 200 success branch. -/
def UnbindResult.isOk : UnbindResult → Bool
  | UnbindResult.ok => true
  | _ => false

/-- Whether a move outcome is the HTTP 200 success branch. -/
def MoveResult.isOk : MoveResult → Bool
  | MoveResult.ok _ => true
  | _ => false

/-- Whether a goto outcome is the HTTP 200 success branch. -/
def GotoResult.isOk : GotoResult → Bool
  | GotoResult.ok _ _ => true
  | _ => false

/-- Whether a state outcome is the HTTP 200 success branch. -/
def StateResult.isOk : StateResult → Bool
  | StateResult.ok _ => true
  | _ => false

/-- Whether a say outcome is the HTTP 200 success branch. -/
def SayResult.isOk : SayResult → Bool
  | SayResult.ok _ => true
  | _ => false

/-- Whether a task-status outcome is the HTTP 200 success branch. -/
def TaskStatusResult.isOk : TaskStatusResult → Bool
  | TaskStatusResult.ok _ => true
  | _ => false

/-! ### Sequencing of Control API requests

A single authoritative process serializes all mutating requests; `step`
dispatches one request to its handler and `runRequests` folds a request
list, concatenating the broadcast traces in execution order. -/

/-- One mutating Control API request with its body, together with the
ambient inputs of its handler (`Date.now()` readings, the random
character draw, the pathfinding fuel). -/
inductive Request where
  | bind (id : String) (customName : Option String) (now : Nat) (randChar : String)
  | unbind (id : String) (now : Nat)
  | move (id : String) (direction : Option String)
  | goto (id : String) (fuel : Nat) (loc : Option String) (xArg yArg : Option Int)
  | setState (id : String) (st : Option String)
  | say (id : String) (message : Option String) (duration : Option Nat) (now : Nat)
  | setTaskStatus (id : String) (status description : Option String) (now : Nat)
  deriving DecidableEq, Repr

/-- Dispatch one request; the Boolean records whether the handler took
its success branch (HTTP 200 with `ok: true`). -/
def step (s : ServerState) : Request → Bool × ServerState × List Event
  | Request.bind id nm now rc =>
    let (r, s', es) := bindHandler s id nm now rc
    (r.isOk, s', es)
  | Request.unbind id now =>
    let (r, s', es) := unbindHandler s id now
    (r.isOk, s', es)
  | Request.move id dir =>
    let (r, s', es) := moveHandler s id dir
    (r.isOk, s', es)
  | Request.goto id fuel loc xa ya =>
    let (r, s', es) := gotoHandler s fuel id loc xa ya
    (r.isOk, s', es)
  | Request.setState id st =>
    let (r, s', es) := stateHandler s id st
    (r.isOk, s', es)
  | Request.say id msg dur now =>
    let (r, s', es) := sayHandler s id msg dur now
    (r.isOk, s', es)
  | Request.setTaskStatus id st d now =>
    let (r, s', es) := taskStatusHandler s id st d now
    (r.isOk, s', es)

/-- Run a request sequence, returning the final state and the broadcast
trace in emission order. -/
def runRequests : ServerState → List Request → ServerState × List Event
  | s, [] => (s, [])
  | s, r :: rs =>
    let o := step s r
    let rest := runRequests o.2.1 rs
    (rest.1, o.2.2 ++ rest.2)

/-! ### Concrete fixtures used by counterexamples and witnesses -/

/-- A fully walkable 2×1 grid. -/
def grid2x1 : CollisionMap := { width := 2, height := 1, data := [0, 0] }

/-- The 5×5 scenario grid: all walkable except column x=2 at rows 0-3. -/
def grid5x5Blocked : CollisionMap :=
  { width := 5, height := 5
    data := [0, 0, 1, 0, 0,
             0, 0, 1, 0, 0,
             0, 0, 1, 0, 0,
             0, 0, 1, 0, 0,
             0, 0, 0, 0, 0] }

/-- Fresh server state with no collision map loaded. -/
def stateEmpty : ServerState := initialState none

/-- State after a first bind of the remote bot id "b". -/
def stateBound : ServerState := (bindHandler stateEmpty "b" none 100 "pm").2.1

/-- The live record of bot "b" in `stateBound`. -/
def botB : Bot :=
  { id := "b", type := "remote", character := "pm", name := some "b"
    x := 13, y := 19, target := "spawn", state := "working"
    boundBy := some "b", speech := none, manual := true, moveDir := none
    autoMove := false, path := none, pathIndex := none, createdAt := some 100
    taskStatus := some { status := "idle", description := none, lastUpdate := 100 }
    isNew := true }

/-- `stateBound` after an authenticated viewer reports position (5,5) for
bot "b" through a `bot_update` frame. -/
def stateMoved : ServerState :=
  (handleWsMessage (fun _ => true) stateBound 0
    { authenticated := false, closedConn := false } (WsMsg.auth "tok")
    ).1 |> fun s1 =>
  (handleWsMessage (fun _ => true) s1 0
    { authenticated := true, closedConn := false } (WsMsg.botUpdate "b" 5 5)).1

/-! ### Association-list and registry lemmas -/

/-- Setting a key not at the head commutes with the head. -/
theorem alSet_cons_ne {κ α : Type} [DecidableEq κ] (e : κ × α)
    (m : List (κ × α)) (k : κ) (v : α) (h : ¬ e.1 = k) :
    alSet (e :: m) k v = e :: alSet m k v := by
  unfold alSet
  simp only [List.find?_cons, h, decide_False]
  split <;> simp_all [h]

/-- Reading back the key just written. -/
theorem alGet_alSet {κ α : Type} [DecidableEq κ] (m : List (κ × α))
    (k : κ) (v : α) : alGet (alSet m k v) k = some v := by
  induction m with
  | nil => simp [alGet, alSet]
  | cons e m ih =>
    by_cases he : e.1 = k
    · unfold alSet
      simp only [List.find?_cons, he, decide_True, Option.isSome_some, if_true]
      simp [alGet, he]
    · rw [alSet_cons_ne e m k v he]
      unfold alGet
      simp only [List.find?_cons, he, decide_False]
      exact ih

/-- Value-update of the entry at a key reads back as the mapped value. -/
theorem alGet_mapValue {α : Type} (m : List (String × α)) (id : String)
    (f : α → α) :
    alGet (m.map (fun e => if e.1 = id then (e.1, f e.2) else e)) id =
      (alGet m id).map f := by
  induction m with
  | nil => simp [alGet]
  | cons e m ih =>
    by_cases he : e.1 = id
    · simp [alGet, List.find?_cons, he]
    · simp only [List.map_cons, he, if_false]
      unfold alGet
      simp only [List.find?_cons, he, decide_False]
      exact ih

/-- Replacing the first id-matching bot relocates `find?` through `f`,
provided `f` does not rename the bot. -/
theorem find?_replaceFirstLocal (f : Bot → Bot) (id : String) (l : List Bot)
    (hf : ∀ b, (f b).id = b.id) :
    (replaceFirstLocal f id l).find? (fun b => b.id = id) =
      (l.find? (fun b => b.id = id)).map f := by
  induction l with
  | nil => simp [replaceFirstLocal]
  | cons b bs ih =>
    by_cases hb : b.id = id
    · simp [replaceFirstLocal, hb, List.find?_cons, hf]
    · simp only [replaceFirstLocal, hb, if_false]
      unfold List.find?
      simp only [hb, decide_False]
      exact ih

/-- A mutation through `updateBot` is observed by `getBotById` at the
same id, provided the mutation does not rename the bot. -/
theorem getBotById_updateBot (s : ServerState) (id : String) (f : Bot → Bot)
    (hf : ∀ b, (f b).id = b.id) :
    getBotById (updateBot s id f) id = (getBotById s id).map f := by
  unfold getBotById updateBot
  rcases hl : s.localBots.find? (fun b => b.id = id) with _ | b
  · simp only [hl, Option.isSome_none, Bool.false_eq_true, if_false]
    exact alGet_mapValue s.remoteBots id f
  · simp only [hl, Option.isSome_some, if_true]
    have := find?_replaceFirstLocal f id s.localBots hf
    rw [hl] at this
    simp only [this, hl]
    rfl

/-- `updateBot` never touches the snapshot store. -/
theorem updateBot_savedBots (s : ServerState) (id : String) (f : Bot → Bot) :
    (updateBot s id f).savedBots = s.savedBots := by
  unfold updateBot
  split <;> rfl

/-- Changing only the snapshot store does not affect live-bot lookup. -/
theorem getBotById_set_savedBots (s : ServerState)
    (sv : List (String × SavedBot)) (id : String) :
    getBotById { s with savedBots := sv } id = getBotById s id := rfl

/-- `updateBot` never touches the local-bot list membership used by the
bind guard (it maps the list in place). -/
theorem updateBot_localBots_of_remote (s : ServerState) (id : String)
    (f : Bot → Bot) (h : (s.localBots.find? (fun b => b.id = id)).isSome = false) :
    (updateBot s id f).localBots = s.localBots := by
  unfold updateBot
  rw [h]
  simp

/-! ### Claim C1 -/

/-- C1 (evaluation at the failing input): the claim states that for
connected walkable tiles the returned path starts at the start tile, ends
at the goal tile, and advances by exactly one tile per step.  On the
fully walkable 2×1 grid the code instead returns the degenerate path
[(0,0),(0,0)] for the route (0,0)→(1,0) — the start is duplicated, the
goal is missing, and the two consecutive elements differ by zero tiles —
and returns null for the trivially connected route (0,0)→(0,0), because
the reconstruction loop prepends `cameFrom` predecessors instead of the
visited nodes and because `fScore.get(start) || Infinity` turns the
f-score 0 of a start-equals-goal search into Infinity. -/
theorem c1_findPath_failing_inputs :
    findPath (some grid2x1) 10 0 0 1 0 =
      some [((0 : Int), (0 : Int)), ((0 : Int), (0 : Int))] ∧
    findPath (some grid2x1) 10 0 0 0 0 = none := by
  decide

/-! ### Claim C2 -/

/-- C2 counterexample: the claim states that the walkability query
returns false whenever the collision map is missing, but `isWalkable`
with no loaded map returns true at (5,5) (and at every coordinate). -/
theorem c2_missing_map_reports_walkable : isWalkable none 5 5 = true := rfl

/-- C2 (amended): with a loaded collision map, every coordinate outside
the range [0,width)×[0,height) is reported non-walkable; with the map
missing, every coordinate is reported walkable. -/
theorem c2_oob_false_and_missing_map_true :
    (∀ (mc : CollisionMap) (x y : Int),
        (x < 0 ∨ x ≥ mc.width ∨ y < 0 ∨ y ≥ mc.height) →
        isWalkable (some mc) x y = false) ∧
    (∀ x y : Int, isWalkable none x y = true) := by
  constructor
  · intro mc x y h
    unfold isWalkable
    rcases h with h | h | h | h <;> simp [h]
  · intro x y
    rfl

/-- Witness for the amended C2 theorem at concrete coordinates. -/
theorem c2_oob_false_and_missing_map_true_witness :
    isWalkable (some grid2x1) (-1) 0 = false ∧ isWalkable none 7 7 = true :=
  ⟨c2_oob_false_and_missing_map_true.1 grid2x1 (-1) 0 (Or.inl (by decide)),
   c2_oob_false_and_missing_map_true.2 7 7⟩

/-! ### Claim C3 -/

/-- C3 counterexample: the claim states that a bind request for an
already-bound bot carrying the same controller id succeeds as a no-op, in
particular without changing the bot's position.  Bot "b" is bound, then
an authenticated viewer syncs its live position to (5,5); a second bind
of the same id "b" succeeds but resets the live position back to the
persisted snapshot position (13,19) — the bind is not a no-op. -/
theorem c3_rebind_changes_position :
    (getBotById stateMoved "b").map (fun b => (b.x, b.y)) = some (5, 5) ∧
    ((bindHandler stateMoved "b" none 200 "xm").1).isOk = true ∧
    (getBotById (bindHandler stateMoved "b" none 200 "xm").2.1 "b").map
      (fun b => (b.x, b.y)) = some (13, 19) := by
  decide

/-- C3 (amended): a bind for any non-local id always succeeds — no
AlreadyBound failure exists, and the bot id doubles as the controller id
so a conflicting-controller bind cannot even be expressed — and the bot
it installs has the last persisted snapshot position when a snapshot
exists (the spawn position otherwise), which need not equal the live
position the bot had before the rebind. -/
theorem c3_bind_always_succeeds_restores_snapshot (s : ServerState)
    (id : String) (nm : Option String) (now : Nat) (rc : String)
    (h : (s.localBots.find? (fun b => b.id = id)).isSome = false) :
    ((bindHandler s id nm now rc).1).isOk = true ∧
    (getBotById (bindHandler s id nm now rc).2.1 id).map (fun b => (b.x, b.y)) =
      some (match alGet s.savedBots id with
            | some sv => sv.lastPosition
            | none => SPAWN_POSITION) := by
  have hn : s.localBots.find? (fun b => b.id = id) = none := by
    cases hfind : s.localBots.find? (fun b => b.id = id) with
    | none => rfl
    | some b => rw [hfind] at h; simp at h
  unfold bindHandler
  rw [h]
  simp only [Bool.false_eq_true, if_false]
  unfold createBot
  cases hsv : alGet s.savedBots id with
  | some sv =>
    simp only [hsv]
    constructor
    · rfl
    · unfold getBotById
      simp only [hn, alGet_alSet]
      rfl
  | none =>
    simp only [hsv]
    constructor
    · rfl
    · unfold getBotById
      simp only [hn, alGet_alSet]
      rfl

/-- Witness for the amended C3 theorem: the rebind of "b" after a live
position sync. -/
theorem c3_bind_always_succeeds_restores_snapshot_witness :
    ((bindHandler stateMoved "b" none 200 "xm").1).isOk = true ∧
    (getBotById (bindHandler stateMoved "b" none 200 "xm").2.1 "b").map
      (fun b => (b.x, b.y)) =
      some (match alGet stateMoved.savedBots "b" with
            | some sv => sv.lastPosition
            | none => SPAWN_POSITION) :=
  c3_bind_always_succeeds_restores_snapshot stateMoved "b" none 200 "xm" (by decide)

/-! ### Claim C4 -/

/-- C4 counterexample: the claim states a bot is never simultaneously in
a directional impulse and a following-path state, a successful move
cancelling any active path.  After a successful goto (which sets the
auto-move path) a successful move request leaves the path fields fully in
place while also setting the direction: the resulting bot carries
`_moveDir = "up"`, `_autoMove = true` and a non-null `_path` at once. -/
theorem c4_move_keeps_active_path :
    ((gotoHandler stateBound 10 "b" none (some 13) (some 18)).1).isOk = true ∧
    ((moveHandler (gotoHandler stateBound 10 "b" none (some 13) (some 18)).2.1
        "b" (some "up")).1).isOk = true ∧
    (getBotById (moveHandler
        (gotoHandler stateBound 10 "b" none (some 13) (some 18)).2.1
        "b" (some "up")).2.1 "b").map
      (fun b => (b.moveDir, b.autoMove, b.path)) =
      some (some "up", true,
            some [((13 : Int), (19 : Int)), ((13 : Int), (19 : Int))]) := by
  decide

/-- C4 (amended): neither request cancels the other's motion state: a
successful move request leaves the target bot's `_autoMove` and `_path`
fields exactly as they were (only `_moveDir` changes), and a successful
goto request leaves `_moveDir` exactly as it was, so the two motion modes
can be active simultaneously (the consuming executor merely prioritises
the directional impulse while both are set). -/
theorem c4_move_goto_do_not_cancel (s : ServerState) (id : String) (bot : Bot)
    (hbot : getBotById s id = some bot) :
    (∀ dir : Option String, ((moveHandler s id dir).1).isOk = true →
      (getBotById (moveHandler s id dir).2.1 id).map
        (fun b => (b.autoMove, b.path)) = some (bot.autoMove, bot.path)) ∧
    (∀ (fuel : Nat) (loc : Option String) (xa ya : Option Int),
      ((gotoHandler s fuel id loc xa ya).1).isOk = true →
      (getBotById (gotoHandler s fuel id loc xa ya).2.1 id).map
        (fun b => b.moveDir) = some bot.moveDir) := by
  constructor
  · intro dir hok
    unfold moveHandler at hok ⊢
    simp only [hbot] at hok ⊢
    cases hb : jsTruthyStr bot.boundBy with
    | false => simp only [hb, Bool.not_false, if_true] at hok; simp [MoveResult.isOk] at hok
    | true =>
      simp only [hb, Bool.not_true, Bool.false_eq_true, if_false] at hok ⊢
      cases dir with
      | none => simp [MoveResult.isOk] at hok
      | some d =>
        cases hd : validDirections.contains d with
        | false => simp only [hd, Bool.false_eq_true, if_false] at hok; simp [MoveResult.isOk] at hok
        | true =>
          simp only [hd, if_true]
          rw [getBotById_updateBot s id (fun b => { b with moveDir := some d })
                (fun b => rfl), hbot]
          rfl
  · intro fuel loc xa ya hok
    unfold gotoHandler at hok ⊢
    simp only [hbot] at hok ⊢
    cases hb : jsTruthyStr bot.boundBy with
    | false => simp only [hb, Bool.not_false, if_true] at hok; simp [GotoResult.isOk] at hok
    | true =>
      simp only [hb, Bool.not_true, Bool.false_eq_true, if_false] at hok ⊢
      cases hl : jsTruthyStr loc with
      | true =>
        simp only [hl, if_true] at hok ⊢
        cases hloc : alGet LOCATIONS (loc.getD "") with
        | none => simp only [hloc] at hok; simp [GotoResult.isOk] at hok
        | some t =>
          simp only [hloc] at hok ⊢
          unfold gotoWithTarget at hok ⊢
          cases hp : findPath s.mapCollisions fuel bot.x bot.y t.1 t.2 with
          | none => simp only [hp] at hok; simp [GotoResult.isOk] at hok
          | some p =>
            simp only [hp]
            rw [getBotById_updateBot s id
                  (fun b => { b with autoMove := true, path := some p,
                                     pathIndex := some 0, target := jsOrStr loc "custom" })
                  (fun b => rfl), hbot]
            rfl
      | false =>
        simp only [hl, Bool.false_eq_true, if_false] at hok ⊢
        cases xa with
        | none =>
          cases ya with
          | none => simp [GotoResult.isOk] at hok
          | some ty => simp [GotoResult.isOk] at hok
        | some tx =>
          cases ya with
          | none => simp [GotoResult.isOk] at hok
          | some ty =>
            unfold gotoWithTarget at hok ⊢
            cases hp : findPath s.mapCollisions fuel bot.x bot.y tx ty with
            | none => simp only [hp] at hok; simp [GotoResult.isOk] at hok
            | some p =>
              simp only [hp]
              rw [getBotById_updateBot s id
                    (fun b => { b with autoMove := true, path := some p,
                                       pathIndex := some 0, target := jsOrStr loc "custom" })
                    (fun b => rfl), hbot]
              rfl

/-- Witness for the amended C4 theorem at the bound bot "b". -/
theorem c4_move_goto_do_not_cancel_witness :
    (getBotById (moveHandler stateBound "b" (some "up")).2.1 "b").map
      (fun b => (b.autoMove, b.path)) = some (botB.autoMove, botB.path) ∧
    (getBotById (gotoHandler stateBound 10 "b" none (some 13) (some 18)).2.1 "b").map
      (fun b => b.moveDir) = some botB.moveDir := by
  have h := c4_move_goto_do_not_cancel stateBound "b" botB (by decide)
  exact ⟨h.1 (some "up") (by decide), h.2 10 none (some 13) (some 18) (by decide)⟩

/-! ### Claim C9 -/

/-- C9 counterexample: on the 5×5 grid blocked at column x=2 rows 0-3,
the claim states that `findPath((0,0),(4,0))` returns a path of length 9;
the code returns a path of a different length (13). -/
theorem c9_path_not_length_9 :
    (findPath (some grid5x5Blocked) 40 0 0 4 0).map List.length ≠ some 9 := by
  decide

/-- C9 (amended): on that grid `findPath((0,0),(4,0))` returns a path of
length 13 that detours through tile (2,4) — the shortest route needs 12
unit steps, and the returned list keeps 13 elements (it duplicates the
start and omits the goal, compensating in length). -/
theorem c9_path_length_13_through_2_4 :
    (findPath (some grid5x5Blocked) 40 0 0 4 0).map List.length = some 13 ∧
    ((findPath (some grid5x5Blocked) 40 0 0 4 0).getD []).contains
      ((2 : Int), (4 : Int)) = true := by
  decide

/-! ### Claim C5 -/

/-- C5 counterexample: the claim states that a malformed body yields
BadRequest before any registry access, identically whether or not the
target bot exists; but a move with an invalid direction and a state
change with an invalid state on a nonexistent bot id both return
NotFound, not BadRequest. -/
theorem c5_malformed_body_gets_not_found :
    (moveHandler stateEmpty "ghost" (some "diagonal")).1 = MoveResult.notFound ∧
    (stateHandler stateEmpty "ghost" (some "sleepy")).1 = StateResult.notFound := by
  decide

/-- C5 (amended): body validation runs only after the registry lookup
(and, for move, after the bound check): a nonexistent id yields NotFound
and an unbound bot yields the not-bound error even when the body is
malformed; once those checks pass, a missing or out-of-range field yields
BadRequest with the state unchanged and nothing broadcast. -/
theorem c5_validation_after_lookup :
    (∀ (s : ServerState) (id : String) (dir : Option String),
        getBotById s id = none →
        moveHandler s id dir = (MoveResult.notFound, s, [])) ∧
    (∀ (s : ServerState) (id : String) (dir : Option String) (bot : Bot),
        getBotById s id = some bot → jsTruthyStr bot.boundBy = false →
        moveHandler s id dir = (MoveResult.notBound, s, [])) ∧
    (∀ (s : ServerState) (id : String) (bot : Bot),
        getBotById s id = some bot → jsTruthyStr bot.boundBy = true →
        moveHandler s id none = (MoveResult.badRequest, s, [])) ∧
    (∀ (s : ServerState) (id d : String) (bot : Bot),
        getBotById s id = some bot → jsTruthyStr bot.boundBy = true →
        validDirections.contains d = false →
        moveHandler s id (some d) = (MoveResult.badRequest, s, [])) ∧
    (∀ (s : ServerState) (id : String) (st : Option String),
        getBotById s id = none →
        stateHandler s id st = (StateResult.notFound, s, [])) ∧
    (∀ (s : ServerState) (id : String) (bot : Bot),
        getBotById s id = some bot →
        stateHandler s id none = (StateResult.badRequest, s, [])) ∧
    (∀ (s : ServerState) (id v : String) (bot : Bot),
        getBotById s id = some bot → validStates.contains v = false →
        stateHandler s id (some v) = (StateResult.badRequest, s, [])) := by
  refine ⟨?_, ?_, ?_, ?_, ?_, ?_, ?_⟩
  · intro s id dir h
    simp [moveHandler, h]
  · intro s id dir bot h hb
    simp [moveHandler, h, hb]
  · intro s id bot h hb
    simp [moveHandler, h, hb]
  · intro s id d bot h hb hd
    simp [moveHandler, h, hb, hd]
    simpa using hd
  · intro s id st h
    simp [stateHandler, h]
  · intro s id bot h
    simp [stateHandler, h]
  · intro s id v bot h hv
    simp [stateHandler, h, hv]
    simpa using hv

/-- Witness for the amended C5 theorem at concrete requests. -/
theorem c5_validation_after_lookup_witness :
    moveHandler stateEmpty "ghost" (some "diagonal") = (MoveResult.notFound, stateEmpty, []) ∧
    moveHandler stateBound "b" (some "diagonal") = (MoveResult.badRequest, stateBound, []) ∧
    stateHandler stateEmpty "ghost" (some "sleepy") = (StateResult.notFound, stateEmpty, []) :=
  ⟨c5_validation_after_lookup.1 stateEmpty "ghost" (some "diagonal") (by decide),
   c5_validation_after_lookup.2.2.2.1 stateBound "b" "diagonal" botB (by decide) (by decide) (by decide),
   c5_validation_after_lookup.2.2.2.2.1 stateEmpty "ghost" (some "sleepy") (by decide)⟩

/-! ### Claim C6 -/

/-- C6: unbinding a remote bot persists its snapshot first, so a
subsequent bind of the same id rehydrates a bot whose position and task
status are exactly the position and task status the bot had at the time
of unbind (not the original spawn values). -/
theorem c6_unbind_bind_restores_state (s : ServerState) (id : String)
    (bot : Bot) (ts : TaskStatus) (nowU nowB : Nat) (nm : Option String)
    (rc : String)
    (hloc : (s.localBots.find? (fun b => b.id = id)).isSome = false)
    (hbot : alGet s.remoteBots id = some bot)
    (htype : (bot.type = "local") = False)
    (hts : bot.taskStatus = some ts) :
    (unbindHandler s id nowU).1 = UnbindResult.ok ∧
    ((bindHandler (unbindHandler s id nowU).2.1 id nm nowB rc).1).isOk = true ∧
    (getBotById (bindHandler (unbindHandler s id nowU).2.1 id nm nowB rc).2.1 id).map
      (fun b => (b.x, b.y, b.taskStatus)) = some (bot.x, bot.y, some ts) := by
  have hn : s.localBots.find? (fun b => b.id = id) = none := by
    cases hfind : s.localBots.find? (fun b => b.id = id) with
    | none => rfl
    | some b => rw [hfind] at hloc; simp at hloc
  have hget : getBotById s id = some bot := by
    unfold getBotById
    rw [hn, hbot]
  unfold unbindHandler
  simp only [hget, htype, if_false]
  refine ⟨by trivial, ?_, ?_⟩
  · unfold bindHandler
    simp only [hn, Option.isSome_none, Bool.false_eq_true, if_false]
    unfold createBot
    rw [alGet_alSet]
    rfl
  · unfold bindHandler
    simp only [hn, Option.isSome_none, Bool.false_eq_true, if_false]
    unfold createBot
    rw [alGet_alSet]
    unfold getBotById
    simp only [hn, alGet_alSet]
    unfold mkSavedBot
    rw [hts]
    rfl

/-- Witness for the C6 theorem: unbind then rebind of bot "b". -/
theorem c6_unbind_bind_restores_state_witness :
    (unbindHandler stateBound "b" 150).1 = UnbindResult.ok ∧
    ((bindHandler (unbindHandler stateBound "b" 150).2.1 "b" none 200 "xm").1).isOk = true ∧
    (getBotById (bindHandler (unbindHandler stateBound "b" 150).2.1 "b" none 200 "xm").2.1 "b").map
      (fun b => (b.x, b.y, b.taskStatus)) =
      some (botB.x, botB.y,
            some { status := "idle", description := none, lastUpdate := 100 }) :=
  c6_unbind_bind_restores_state stateBound "b" botB
    { status := "idle", description := none, lastUpdate := 100 }
    150 200 none "xm" (by decide) (by decide) (by decide) (by decide)

/-! ### Claim C7 -/

/-- C7: setting a task status outside the set of valid strings (or with
the status field missing) fails with BadRequest and leaves the whole
server state — in particular the bot's stored task status and the
snapshot store — unchanged; a valid status succeeds, stores the new task
status on the live bot, and persists it to the snapshot store. -/
theorem c7_task_status_validation_and_persistence (s : ServerState)
    (id : String) (bot : Bot) (hbot : getBotById s id = some bot) :
    (∀ (v : String) (desc : Option String) (now : Nat),
        validTaskStatuses.contains v = false →
        taskStatusHandler s id (some v) desc now = (TaskStatusResult.badRequest, s, [])) ∧
    (∀ (desc : Option String) (now : Nat),
        taskStatusHandler s id none desc now = (TaskStatusResult.badRequest, s, [])) ∧
    (∀ (v : String) (desc : Option String) (now : Nat),
        validTaskStatuses.contains v = true →
        ((taskStatusHandler s id (some v) desc now).1 =
            TaskStatusResult.ok
              { status := v, description := some (jsOrStr desc ""), lastUpdate := now } ∧
         (getBotById (taskStatusHandler s id (some v) desc now).2.1 id).map Bot.taskStatus =
            some (some { status := v, description := some (jsOrStr desc ""), lastUpdate := now }) ∧
         (alGet (taskStatusHandler s id (some v) desc now).2.1.savedBots bot.id).map
            SavedBot.taskStatus =
            some { status := v, description := some (jsOrStr desc ""), lastUpdate := now })) := by
  refine ⟨?_, ?_, ?_⟩
  · intro v desc now hv
    unfold taskStatusHandler
    simp only [hbot, hv, Bool.false_eq_true, if_false]
  · intro desc now
    unfold taskStatusHandler
    simp only [hbot]
  · intro v desc now hv
    unfold taskStatusHandler
    simp only [hbot, hv, if_true]
    refine ⟨by trivial, ?_, ?_⟩
    · rw [getBotById_set_savedBots, getBotById_updateBot, hbot]
      · rfl
      · intro b
        rfl
    · rw [alGet_alSet]
      rfl

/-- Witness for the C7 theorem at the bound bot "b". -/
theorem c7_task_status_validation_and_persistence_witness :
    taskStatusHandler stateBound "b" (some "busy") none 300 =
      (TaskStatusResult.badRequest, stateBound, []) ∧
    (taskStatusHandler stateBound "b" (some "working") (some "shipping") 300).1 =
      TaskStatusResult.ok
        { status := "working", description := some "shipping", lastUpdate := 300 } ∧
    (alGet (taskStatusHandler stateBound "b" (some "working") (some "shipping") 300).2.1.savedBots
        "b").map SavedBot.taskStatus =
      some { status := "working", description := some "shipping", lastUpdate := 300 } := by
  have h := c7_task_status_validation_and_persistence stateBound "b" botB (by decide)
  have h3 := h.2.2 "working" (some "shipping") 300 (by decide)
  exact ⟨h.1 "busy" none 300 (by decide), h3.1, h3.2.2⟩

/-! ### Claim C8 -/

/-- Event-count accounting for the bind handler. -/
theorem bindHandler_events (s : ServerState) (id : String) (nm : Option String)
    (now : Nat) (rc : String) :
    ((bindHandler s id nm now rc).2.2).length =
      (if ((bindHandler s id nm now rc).1).isOk = true then 1 else 0) := by
  unfold bindHandler
  split <;> rfl

/-- Event-count accounting for the unbind handler. -/
theorem unbindHandler_events (s : ServerState) (id : String) (now : Nat) :
    ((unbindHandler s id now).2.2).length =
      (if ((unbindHandler s id now).1).isOk = true then 1 else 0) := by
  unfold unbindHandler
  split
  · rfl
  · split <;> rfl

/-- Event-count accounting for the move handler. -/
theorem moveHandler_events (s : ServerState) (id : String) (dir : Option String) :
    ((moveHandler s id dir).2.2).length =
      (if ((moveHandler s id dir).1).isOk = true then 1 else 0) := by
  unfold moveHandler
  split
  · rfl
  · split
    · rfl
    · split
      · rfl
      · split <;> rfl

/-- Event-count accounting for the goto handler. -/
theorem gotoHandler_events (s : ServerState) (fuel : Nat) (id : String)
    (loc : Option String) (xa ya : Option Int) :
    ((gotoHandler s fuel id loc xa ya).2.2).length =
      (if ((gotoHandler s fuel id loc xa ya).1).isOk = true then 1 else 0) := by
  unfold gotoHandler gotoWithTarget
  repeat' split
  all_goals first | rfl | simp_all [GotoResult.isOk]

/-- Event-count accounting for the state handler. -/
theorem stateHandler_events (s : ServerState) (id : String) (st : Option String) :
    ((stateHandler s id st).2.2).length =
      (if ((stateHandler s id st).1).isOk = true then 1 else 0) := by
  unfold stateHandler
  split
  · rfl
  · split
    · rfl
    · split <;> rfl

/-- Event-count accounting for the say handler. -/
theorem sayHandler_events (s : ServerState) (id : String) (msg : Option String)
    (dur : Option Nat) (now : Nat) :
    ((sayHandler s id msg dur now).2.2).length =
      (if ((sayHandler s id msg dur now).1).isOk = true then 1 else 0) := by
  unfold sayHandler
  split
  · rfl
  · split <;> rfl

/-- Event-count accounting for the task-status handler. -/
theorem taskStatusHandler_events (s : ServerState) (id : String)
    (st desc : Option String) (now : Nat) :
    ((taskStatusHandler s id st desc now).2.2).length =
      (if ((taskStatusHandler s id st desc now).1).isOk = true then 1 else 0) := by
  unfold taskStatusHandler
  split
  · rfl
  · split
    · rfl
    · split <;> rfl

/-- C8: every mutating Control API request emits exactly one broadcast
event when (and only when) it succeeds and none otherwise; a request
sequence emits the concatenation of the per-request events in execution
order (the broadcast happens inside the handler, before the response is
produced); and every emitted event is fanned out to exactly the
authenticated connections in `wsClients`. -/
theorem c8_one_broadcast_per_mutation :
    (∀ (s : ServerState) (r : Request),
        ((step s r).2.2).length = (if (step s r).1 = true then 1 else 0)) ∧
    (∀ (s : ServerState) (r : Request) (rs : List Request),
        (runRequests s (r :: rs)).2 =
          (step s r).2.2 ++ (runRequests (step s r).2.1 rs).2) ∧
    (∀ (s : ServerState) (e : Event) (c : Nat),
        (c, e) ∈ broadcastSends s e ↔ c ∈ s.wsClients) := by
  refine ⟨?_, ?_, ?_⟩
  · intro s r
    cases r with
    | bind id nm now rc => simpa [step] using bindHandler_events s id nm now rc
    | unbind id now => simpa [step] using unbindHandler_events s id now
    | move id dir => simpa [step] using moveHandler_events s id dir
    | goto id fuel loc xa ya => simpa [step] using gotoHandler_events s fuel id loc xa ya
    | setState id st => simpa [step] using stateHandler_events s id st
    | say id msg dur now => simpa [step] using sayHandler_events s id msg dur now
    | setTaskStatus id st d now => simpa [step] using taskStatusHandler_events s id st d now
  · intro s r rs
    rfl
  · intro s e c
    simp [broadcastSends]

/-! ### Claim C10 -/

/-- C10: an `auth` frame whose token fails verification is answered with
`auth_failed` and the connection is closed, with the server state (in
particular `wsClients`, the broadcast set) unchanged — the connection is
never added; a non-auth frame received before authentication is answered
with an error reply only, leaving the connection open and the state
unchanged. -/
theorem c10_bad_auth_closes_connection (verify : String → Bool)
    (s : ServerState) (cid : Nat) (c : ConnState) (tok : String)
    (hv : verify tok = false) (hc : c.authenticated = false) :
    handleWsMessage verify s cid c (WsMsg.auth tok) =
      (s, { c with closedConn := true }, [WsReply.authFailed], []) ∧
    (∀ (id : String) (x y : Int),
      handleWsMessage verify s cid c (WsMsg.botUpdate id x y) =
        (s, c, [WsReply.errNotAuthenticated], [])) ∧
    handleWsMessage verify s cid c WsMsg.other =
      (s, c, [WsReply.errNotAuthenticated], []) := by
  refine ⟨?_, ?_, ?_⟩
  · simp [handleWsMessage, hv]
  · intro id x y
    simp [handleWsMessage, hc]
  · simp [handleWsMessage, hc]

/-- Witness for the C10 theorem on a fresh unauthenticated connection. -/
theorem c10_bad_auth_closes_connection_witness :
    handleWsMessage (fun _ => false) stateEmpty 0
        { authenticated := false, closedConn := false } (WsMsg.auth "bad") =
      (stateEmpty, { authenticated := false, closedConn := true },
       [WsReply.authFailed], []) ∧
    handleWsMessage (fun _ => false) stateEmpty 0
        { authenticated := false, closedConn := false } (WsMsg.botUpdate "b" 1 2) =
      (stateEmpty, { authenticated := false, closedConn := false },
       [WsReply.errNotAuthenticated], []) ∧
    handleWsMessage (fun _ => false) stateEmpty 0
        { authenticated := false, closedConn := false } WsMsg.other =
      (stateEmpty, { authenticated := false, closedConn := false },
       [WsReply.errNotAuthenticated], []) := by
  have h := c10_bad_auth_closes_connection (fun _ => false) stateEmpty 0
    { authenticated := false, closedConn := false } "bad" rfl rfl
  exact ⟨h.1, h.2.1 "b" 1 2, h.2.2⟩

end ClawOffice
